import Mathlib

/-!
Shallow embedding of `src/src/functions/product-updated-http.ts`.

JavaScript runtime values (as produced by `JSON.parse`, plus the extra
values `undefined`, `NaN`, `Infinity` that `validatePayload` may be fed
in principle, since its parameter has type `any`) are modelled by
`JSValue`.  Finite JS numbers are modelled as rationals; the distinction
that matters to the code (`Number.isInteger`, comparison with 0,
`typeof`) is preserved.  The ECMAScript `Date` machinery used by
`isIsoDateString` (`new Date(string)` and `Date.prototype.toISOString`)
is modelled by `parseDate` and `toISOString` below, implementing the
ECMAScript Date Time String Format — four-digit years and the expanded
signed six-digit years that `toISOString` emits outside 0–9999 — with
the host timezone taken to be UTC (the Azure Functions default), which
covers every string that can pass the round-trip check of the source.
-/

/-- A finite JS number (as a rational) or one of the special values. -/
inductive JSNumber where
  | finite (q : ℚ)
  | nan
  | inf
  | negInf
deriving DecidableEq, Repr

/-- A JavaScript runtime value as seen by `validatePayload`. -/
inductive JSValue where
  | null
  | undefined
  | bool (b : Bool)
  | num (n : JSNumber)
  | str (s : String)
  | arr (elems : List JSValue)
  | obj (fields : List (String × JSValue))
deriving Repr

/-- The JS `typeof` operator restricted to the values of `JSValue`. -/
def JSValue.typeofStr : JSValue → String
  | .undefined => "undefined"
  | .null => "object"
  | .bool _ => "boolean"
  | .num _ => "number"
  | .str _ => "string"
  | .arr _ => "object"
  | .obj _ => "object"

/-- JS truthiness (`!body` is the negation of this). -/
def JSValue.truthy : JSValue → Bool
  | .null => false
  | .undefined => false
  | .bool b => b
  | .num (.finite q) => decide (q ≠ 0)
  | .num .nan => false
  | .num _ => true
  | .str s => s ≠ ""
  | .arr _ => true
  | .obj _ => true

/-- JS property access `body[k]` for the five destructured fields:
yields `undefined` when the property is absent or the value is not an
object with that key (arrays and primitives have none of these five
string-named properties). -/
def getField (body : JSValue) (k : String) : JSValue :=
  match body with
  | .obj fields => (fields.lookup k).getD .undefined
  | _ => .undefined

/-- The WhiteSpace and LineTerminator code points trimmed by
`String.prototype.trim`. -/
def isJsWhitespace (c : Char) : Bool :=
  c == ' ' || c == '\t' || c == '\n' || c == '\r' ||
  c == '\x0b' || c == '\x0c' || c.toNat == 0xa0 || c.toNat == 0x1680 ||
  (0x2000 ≤ c.toNat && c.toNat ≤ 0x200a) || c.toNat == 0x2028 ||
  c.toNat == 0x2029 || c.toNat == 0x202f || c.toNat == 0x205f ||
  c.toNat == 0x3000 || c.toNat == 0xfeff

/-- JS `String.prototype.trim`: drop leading and trailing whitespace. -/
def jsTrim (s : String) : String :=
  String.mk (((s.data.dropWhile isJsWhitespace).reverse.dropWhile
    isJsWhitespace).reverse)

/-- `Number.isInteger`. -/
def JSNumber.isIntegerNum : JSNumber → Bool
  | .finite q => q.den == 1
  | _ => false

/-- The JS comparison `n < 0` (false on `NaN`). -/
def JSNumber.ltZero : JSNumber → Bool
  | .finite q => decide (q < 0)
  | .negInf => true
  | _ => false

example : JSNumber.isIntegerNum (.finite (mkRat 7 2)) = false := by decide
example : JSNumber.isIntegerNum (.finite (mkRat 500 1)) = true := by decide
example : jsTrim "  " = "" := by decide
example : jsTrim " a " = "a" := by decide

/-! ## ECMAScript `Date` model

`new Date(string)` followed by `getTime`, and `Date.prototype.toISOString`,
implementing the ECMAScript Date Time String Format
`YYYY[-MM[-DD]][THH:mm[:ss[.sss]]][Z|(+|-)HH:mm]`, where the year is either
four digits or an expanded signed six-digit year (`+YYYYYY`/`-YYYYYY`,
with `-000000` invalid per the spec), and the host timezone is fixed to
UTC. Strings outside this format are modelled as parsing to an invalid
date (`none`), which agrees with Node.js on every string exercised by the
claims; in particular every `toISOString` output parses back. -/

/-- The numeric value of a decimal digit, `none` otherwise. -/
def digitVal (c : Char) : Option Nat :=
  if '0' ≤ c ∧ c ≤ '9' then some (c.toNat - 48) else none

/-- Parse exactly `w` decimal digits (most significant first) on top of
accumulator `acc`, returning the value and the rest of the input. -/
def parseDigits : Nat → Nat → List Char → Option (Nat × List Char)
  | 0, acc, cs => some (acc, cs)
  | w + 1, acc, c :: cs =>
    match digitVal c with
    | some d => parseDigits w (acc * 10 + d) cs
    | none => none
  | _ + 1, _, [] => none

/-- Consume one expected character. -/
def expectChar (c : Char) : List Char → Option (List Char)
  | c' :: cs => if c' = c then some cs else none
  | [] => none

/-- Parse `YYYY[-MM[-DD]]` where `YYYY` is four digits or an expanded
signed six-digit year (`+YYYYYY`/`-YYYYYY`; `-000000` is invalid);
omitted month and day default to 1. -/
def parseDateFields (cs : List Char) : Option (Int × Nat × Nat × List Char) := do
  let (y, cs) ←
    (match cs with
     | '+' :: cs => do
       let (y6, cs) ← parseDigits 6 0 cs
       pure ((y6 : Int), cs)
     | '-' :: cs => do
       let (y6, cs) ← parseDigits 6 0 cs
       if y6 = 0 then none else pure ((-(y6 : Int)), cs)
     | _ => do
       let (y4, cs) ← parseDigits 4 0 cs
       pure ((y4 : Int), cs)
     : Option (Int × List Char))
  match cs with
  | '-' :: cs => do
    let (m, cs) ← parseDigits 2 0 cs
    match cs with
    | '-' :: cs => do
      let (d, cs) ← parseDigits 2 0 cs
      pure (y, m, d, cs)
    | _ => pure (y, m, 1, cs)
  | _ => pure (y, 1, 1, cs)

/-- Parse `HH:mm[:ss[.sss]]`; omitted seconds and milliseconds default
to 0. -/
def parseTimeFields (cs : List Char) :
    Option (Nat × Nat × Nat × Nat × List Char) := do
  let (hh, cs) ← parseDigits 2 0 cs
  let cs ← expectChar ':' cs
  let (mi, cs) ← parseDigits 2 0 cs
  match cs with
  | ':' :: cs => do
    let (ss, cs) ← parseDigits 2 0 cs
    match cs with
    | '.' :: cs => do
      let (ms, cs) ← parseDigits 3 0 cs
      pure (hh, mi, ss, ms, cs)
    | _ => pure (hh, mi, ss, 0, cs)
  | _ => pure (hh, mi, 0, 0, cs)

/-- Parse an optional timezone offset (`Z` or `(+|-)HH:mm`), in minutes;
`none` when absent (interpreted as host-local time, modelled as UTC). -/
def parseOffset (cs : List Char) : Option (Option Int × List Char) :=
  match cs with
  | [] => some (none, [])
  | 'Z' :: cs => some (some 0, cs)
  | '+' :: cs =>
    (do
      let (h, cs) ← parseDigits 2 0 cs
      let cs ← expectChar ':' cs
      let (mi, cs) ← parseDigits 2 0 cs
      if h ≤ 23 ∧ mi ≤ 59 then pure (some ((h * 60 + mi : Nat) : Int), cs)
      else none : Option (Option Int × List Char))
  | '-' :: cs =>
    (do
      let (h, cs) ← parseDigits 2 0 cs
      let cs ← expectChar ':' cs
      let (mi, cs) ← parseDigits 2 0 cs
      if h ≤ 23 ∧ mi ≤ 59 then pure (some (-((h * 60 + mi : Nat) : Int)), cs)
      else none : Option (Option Int × List Char))
  | _ => none

def isLeapYear (y : Int) : Bool :=
  (y % 4 == 0 && y % 100 != 0) || y % 400 == 0

def daysInMonth (y : Int) (m : Nat) : Nat :=
  if m = 2 then (if isLeapYear y then 29 else 28)
  else if m = 4 ∨ m = 6 ∨ m = 9 ∨ m = 11 then 30
  else 31

/-- Days since the Unix epoch of the civil date `y-m-d` (proleptic
Gregorian calendar). -/
def daysFromCivil (y : Int) (m d : Nat) : Int :=
  let y' : Int := if m ≤ 2 then y - 1 else y
  let era : Int := y'.fdiv 400
  let yoe : Nat := (y' - era * 400).toNat
  let mp : Nat := (m + 9) % 12
  let doy : Nat := (153 * mp + 2) / 5 + d - 1
  let doe : Nat := yoe * 365 + yoe / 4 - yoe / 100 + doy
  era * 146097 + (doe : Int) - 719468

/-- Civil date `(y, m, d)` of a count of days since the Unix epoch. -/
def civilFromDays (z0 : Int) : Int × Nat × Nat :=
  let z : Int := z0 + 719468
  let era : Int := z.fdiv 146097
  let doe : Nat := (z - era * 146097).toNat
  let yoe : Nat := (doe - doe / 1460 + doe / 36524 - doe / 146096) / 365
  let y : Int := era * 400 + (yoe : Int)
  let doy : Nat := doe - (365 * yoe + yoe / 4 - yoe / 100)
  let mp : Nat := (5 * doy + 2) / 153
  let d : Nat := doy - (153 * mp + 2) / 5 + 1
  let m : Nat := if mp < 10 then mp + 3 else mp - 9
  ((if m ≤ 2 then y + 1 else y), m, d)

/-- `new Date(s).getTime()`: milliseconds since the epoch, or `none` for
an invalid date. -/
def parseDate (s : String) : Option Int := do
  let cs := s.data
  let (y, m, d, cs) ← parseDateFields cs
  let (hh, mi, ss, ms, off, cs) ←
    (match cs with
     | [] => some (0, 0, 0, 0, some (0 : Int), ([] : List Char))
     | 'T' :: cs => do
       let (hh, mi, ss, ms, cs) ← parseTimeFields cs
       let (off, cs) ← parseOffset cs
       pure (hh, mi, ss, ms, off, cs)
     | _ => none)
  if cs = [] ∧ 1 ≤ m ∧ m ≤ 12 ∧ 1 ≤ d ∧ d ≤ daysInMonth y m ∧
      mi ≤ 59 ∧ ss ≤ 59 ∧
      (hh ≤ 23 ∨ (hh = 24 ∧ mi = 0 ∧ ss = 0 ∧ ms = 0)) then
    let timeMs : Int := hh * 3600000 + mi * 60000 + ss * 1000 + ms
    let t : Int := daysFromCivil y m d * 86400000 + timeMs - off.getD 0 * 60000
    if t.natAbs ≤ 8640000000000000 then some t else none
  else none

/-- Render `n` as exactly `w` decimal digits, zero padded. -/
def padNum (w n : Nat) : String :=
  String.mk ((List.range w).map (fun i => Char.ofNat (48 + n / 10 ^ (w - 1 - i) % 10)))

/-- `Date.prototype.toISOString` of a valid time value. -/
def toISOString (t : Int) : String :=
  let days : Int := t.fdiv 86400000
  let msOfDay : Nat := (t.emod 86400000).toNat
  let c := civilFromDays days
  let y : Int := c.1
  let m : Nat := c.2.1
  let d : Nat := c.2.2
  let yearStr : String :=
    if 0 ≤ y ∧ y ≤ 9999 then padNum 4 y.toNat
    else if 9999 < y then "+" ++ padNum 6 y.toNat
    else "-" ++ padNum 6 (-y).toNat
  yearStr ++ "-" ++ padNum 2 m ++ "-" ++ padNum 2 d ++ "T" ++
    padNum 2 (msOfDay / 3600000) ++ ":" ++ padNum 2 (msOfDay / 60000 % 60) ++
    ":" ++ padNum 2 (msOfDay / 1000 % 60) ++ "." ++ padNum 3 (msOfDay % 1000) ++ "Z"

/-- `isIsoDateString` from the source: a string that parses to a valid
date and survives the parse → `toISOString` round trip unchanged. -/
def isIsoDateString (value : JSValue) : Bool :=
  match value with
  | .str s =>
    match parseDate s with
    | some t => toISOString t == s
    | none => false
  | _ => false

example : parseDate "2024-01-01T00:00:00.000Z" = some 1704067200000 := by decide
example : parseDate "2024-01-01" = some 1704067200000 := by decide
example : parseDate "bad" = none := by decide
example : toISOString 1704067200000 = "2024-01-01T00:00:00.000Z" := by decide
example : isIsoDateString (.str "2024-01-01T00:00:00.000Z") = true := by decide
example : isIsoDateString (.str "2024-01-01") = false := by decide
example : isIsoDateString (.str "bad") = false := by decide
example : isIsoDateString (.num .nan) = false := by decide
example : isIsoDateString (.str "+010000-01-01T00:00:00.000Z") = true := by decide
example : isIsoDateString (.str "-000001-01-01T00:00:00.000Z") = true := by decide
example : isIsoDateString (.str "+002024-01-01T00:00:00.000Z") = false := by decide
example : parseDate "-000000-01-01" = none := by decide

/-! ## The validator and the HTTP handler -/

/-- The `ProductUpdatedDto` record. Its TypeScript field types are
compile-time annotations erased at runtime; the accepted value stores
the five destructured properties verbatim, so the fields are modelled
as runtime values. -/
structure ProductUpdatedDto where
  id : JSValue
  name : JSValue
  pricePence : JSValue
  description : JSValue
  updatedAt : JSValue

/-- The return type of `validatePayload`:
`{ ok: true; data } | { ok: false; errors }`. -/
inductive ValidationResult where
  | accepted (data : ProductUpdatedDto)
  | rejected (errors : List String)

/-- The push condition for `id` and `name`:
`typeof v !== 'string' || v.trim().length === 0`. -/
def strFails : JSValue → Bool
  | .str s => (jsTrim s).length == 0
  | _ => true

/-- The push condition for `pricePence`:
`typeof v !== 'number' || !Number.isInteger(v) || v < 0`. -/
def priceFails : JSValue → Bool
  | .num n => !n.isIntegerNum || n.ltZero
  | _ => true

/-- The five field checks of `validatePayload`, each appending its
message exactly when its condition from the source holds, in source
order. -/
def fieldErrors (body : JSValue) : List String :=
  (if strFails (getField body "id") then ["id must be a non-empty string"] else []) ++
  (if strFails (getField body "name") then ["name must be a non-empty string"] else []) ++
  (if priceFails (getField body "pricePence") then ["pricePence must be a non-negative integer"] else []) ++
  (if (getField body "description").typeofStr ≠ "string" then ["description must be a string"] else []) ++
  (if !isIsoDateString (getField body "updatedAt") then ["updatedAt must be an ISO 8601 string (Date.toISOString)"] else [])

/-- `validatePayload` from the source. The guard is
`!body || typeof body !== 'object'`; note that JS arrays satisfy
`typeof body === 'object'` and are truthy, so they pass the guard. -/
def validatePayload (body : JSValue) : ValidationResult :=
  if !body.truthy || body.typeofStr ≠ "object" then
    .rejected ["Body must be a JSON object."]
  else
    let errors := fieldErrors body
    if errors.length > 0 then
      .rejected errors
    else
      .accepted ⟨getField body "id", getField body "name",
        getField body "pricePence", getField body "description",
        getField body "updatedAt"⟩

/-- The error list of a result (empty when accepted). -/
def rejectionErrors : ValidationResult → List String
  | .accepted _ => []
  | .rejected errors => errors

/-- Outcome of `await request.json()`: a decoded value or a parse
failure. -/
inductive BodyParseResult where
  | ok (v : JSValue)
  | fail

/-- An HTTP response: status code and JSON body. -/
structure HttpResponse where
  status : Nat
  jsonBody : JSValue

/-- `productUpdatedHttpHandler` from the source, with the request
abstracted to the outcome of its body parse (logging is effect-free on
the response and omitted). -/
def productUpdatedHttpHandler : BodyParseResult → HttpResponse
  | .fail => ⟨400, .obj [("error", .str "Invalid JSON body")]⟩
  | .ok body =>
    match validatePayload body with
    | .rejected errors =>
      ⟨400, .obj [("error", .str "ValidationError"),
                  ("details", .arr (errors.map .str))]⟩
    | .accepted _ => ⟨202, .obj [("message", .str "accepted")]⟩

/-- The spec's well-formed example payload. -/
def examplePayload : JSValue :=
  .obj [("id", .str "p1"), ("name", .str "Widget"),
        ("pricePence", .num (.finite (mkRat 500 1))),
        ("description", .str ""),
        ("updatedAt", .str "2024-01-01T00:00:00.000Z")]

example : rejectionErrors (validatePayload examplePayload) = [] := by decide
example : fieldErrors (.arr []) =
    ["id must be a non-empty string", "name must be a non-empty string",
     "pricePence must be a non-negative integer", "description must be a string",
     "updatedAt must be an ISO 8601 string (Date.toISOString)"] := by decide
example : rejectionErrors (validatePayload (.str "hello")) =
    ["Body must be a JSON object."] := by decide

/-! ## Helper lemmas -/

theorem strLength_eq_zero_iff (s : String) : s.length = 0 ↔ s = "" := by
  cases s with
  | mk data => cases data <;> simp [String.length, String.ext_iff]

theorem strFails_eq_false_iff (v : JSValue) :
    strFails v = false ↔ ∃ s, v = .str s ∧ jsTrim s ≠ "" := by
  cases v <;> simp [strFails]
  case str s => simp [strLength_eq_zero_iff]

theorem priceFails_eq_false_iff (v : JSValue) :
    priceFails v = false ↔
      ∃ q : ℚ, v = .num (.finite q) ∧ q.den = 1 ∧ 0 ≤ q := by
  cases v <;> simp [priceFails]
  case num n =>
    cases n <;> simp [JSNumber.isIntegerNum, JSNumber.ltZero, not_lt]

theorem isIsoDateString_eq_true_iff (v : JSValue) :
    isIsoDateString v = true ↔
      ∃ s t, v = .str s ∧ parseDate s = some t ∧ toISOString t = s := by
  cases v <;> simp [isIsoDateString]
  case str s =>
    cases h : parseDate s <;> simp [h]

theorem rejectionErrors_validatePayload (body : JSValue)
    (h1 : body.truthy = true) (h2 : body.typeofStr = "object") :
    rejectionErrors (validatePayload body) = fieldErrors body := by
  unfold validatePayload
  split_ifs with hg
  · rw [h1, h2] at hg
    exact absurd hg (by decide)
  · by_cases h : (fieldErrors body).length > 0
    · simp [h, rejectionErrors]
    · have h0 : fieldErrors body = [] := List.length_eq_zero.mp (by omega)
      simp [h, rejectionErrors, h0]

theorem validatePayload_object_rejected (body : JSValue)
    (h1 : body.truthy = true) (h2 : body.typeofStr = "object")
    (h3 : fieldErrors body ≠ []) :
    validatePayload body = .rejected (fieldErrors body) := by
  unfold validatePayload
  split_ifs with hg
  · rw [h1, h2] at hg
    exact absurd hg (by decide)
  · simp [List.length_pos.mpr h3]

theorem mem_fieldErrors_id (body : JSValue) :
    ("id must be a non-empty string" ∈ fieldErrors body) ↔
      strFails (getField body "id") = true := by
  unfold fieldErrors
  split_ifs <;> simp_all

theorem mem_fieldErrors_name (body : JSValue) :
    ("name must be a non-empty string" ∈ fieldErrors body) ↔
      strFails (getField body "name") = true := by
  unfold fieldErrors
  split_ifs <;> simp_all

theorem mem_fieldErrors_price (body : JSValue) :
    ("pricePence must be a non-negative integer" ∈ fieldErrors body) ↔
      priceFails (getField body "pricePence") = true := by
  unfold fieldErrors
  split_ifs <;> simp_all

theorem mem_fieldErrors_updatedAt (body : JSValue) :
    ("updatedAt must be an ISO 8601 string (Date.toISOString)" ∈ fieldErrors body) ↔
      isIsoDateString (getField body "updatedAt") = false := by
  unfold fieldErrors
  split_ifs <;> simp_all

theorem fieldErrors_length_le_five (body : JSValue) :
    (fieldErrors body).length ≤ 5 := by
  unfold fieldErrors
  split_ifs <;> simp

/-- A `JSValue` that is neither an object nor an array: these are exactly
the inputs on which the guard `!body || typeof body !== 'object'` fires
(`null` and `undefined` are falsy; booleans, numbers and strings have a
`typeof` other than `"object"`). -/
def isPrimitiveValue : JSValue → Bool
  | .arr _ => false
  | .obj _ => false
  | _ => true

/-- Every `validatePayload` result is the single-error rejection of the
guard, a rejection by the nonempty field-error list, or an acceptance. -/
theorem validatePayload_shape (body : JSValue) :
    validatePayload body = .rejected ["Body must be a JSON object."] ∨
    (validatePayload body = .rejected (fieldErrors body) ∧
      fieldErrors body ≠ []) ∨
    (∃ d, validatePayload body = .accepted d) := by
  unfold validatePayload
  split_ifs with hg
  · exact Or.inl rfl
  · by_cases hl : (fieldErrors body).length > 0
    · refine Or.inr (Or.inl ⟨by simp [hl], ?_⟩)
      intro h
      rw [h] at hl
      simp at hl
    · exact Or.inr (Or.inr ⟨⟨getField body "id", getField body "name",
        getField body "pricePence", getField body "description",
        getField body "updatedAt"⟩, by simp [hl]⟩)

/-! ## Claims -/

/-- C1: every well-formed ProductUpdated input (id and name strings that
are non-empty after trimming, pricePence a non-negative integer number,
description a string, updatedAt a string that parses to a valid
timestamp re-serializing to itself) is accepted with the five fields
stored verbatim, untouched by trimming or any normalization. -/
theorem C1_wellformed_accepted (fs : List (String × JSValue))
    (i n ds ua : String) (q : ℚ)
    (hi : getField (.obj fs) "id" = .str i) (hi' : jsTrim i ≠ "")
    (hn : getField (.obj fs) "name" = .str n) (hn' : jsTrim n ≠ "")
    (hp : getField (.obj fs) "pricePence" = .num (.finite q))
    (hq1 : q.den = 1) (hq2 : 0 ≤ q)
    (hd : getField (.obj fs) "description" = .str ds)
    (hu : getField (.obj fs) "updatedAt" = .str ua)
    (ht : ∃ t, parseDate ua = some t ∧ toISOString t = ua) :
    validatePayload (.obj fs) =
      .accepted ⟨.str i, .str n, .num (.finite q), .str ds, .str ua⟩ := by
  obtain ⟨t, ht1, ht2⟩ := ht
  have e1 : strFails (JSValue.str i) = false :=
    (strFails_eq_false_iff _).mpr ⟨i, rfl, hi'⟩
  have e2 : strFails (JSValue.str n) = false :=
    (strFails_eq_false_iff _).mpr ⟨n, rfl, hn'⟩
  have e3 : priceFails (JSValue.num (.finite q)) = false :=
    (priceFails_eq_false_iff _).mpr ⟨q, rfl, hq1, hq2⟩
  have e5 : isIsoDateString (JSValue.str ua) = true :=
    (isIsoDateString_eq_true_iff _).mpr ⟨ua, t, rfl, ht1, ht2⟩
  have hfe : fieldErrors (.obj fs) = [] := by
    unfold fieldErrors
    rw [hi, hn, hp, hd, hu]
    simp [e1, e2, e3, e5, JSValue.typeofStr]
  unfold validatePayload
  split_ifs with hg
  · exact absurd hg (by simp [JSValue.truthy, JSValue.typeofStr])
  · simp [hfe, hi, hn, hp, hd, hu]

/-- C1 witness: the spec's example payload is accepted verbatim. -/
theorem C1_witness :
    validatePayload (.obj [("id", .str "p1"), ("name", .str "Widget"),
        ("pricePence", .num (.finite (mkRat 500 1))), ("description", .str ""),
        ("updatedAt", .str "2024-01-01T00:00:00.000Z")]) =
      .accepted ⟨.str "p1", .str "Widget", .num (.finite (mkRat 500 1)),
        .str "", .str "2024-01-01T00:00:00.000Z"⟩ :=
  C1_wellformed_accepted _ "p1" "Widget" "" "2024-01-01T00:00:00.000Z"
    (mkRat 500 1) rfl (by decide) rfl (by decide) rfl (by decide) (by decide)
    rfl rfl ⟨1704067200000, by decide, by decide⟩

/-- C2 counterexample: an array (`typeof` is `"object"` and it is
truthy) passes the guard, so `validatePayload` does not return the
single guard error on it; it reports the five field errors instead. -/
theorem C2_counterexample :
    validatePayload (.arr []) ≠
      .rejected ["Body must be a JSON object."] := by
  intro h
  have h5 : validatePayload (.arr []) = .rejected
      ["id must be a non-empty string", "name must be a non-empty string",
       "pricePence must be a non-negative integer",
       "description must be a string",
       "updatedAt must be an ISO 8601 string (Date.toISOString)"] := rfl
  rw [h5] at h
  injection h with h'
  exact absurd h' (by decide)

/-- C2 (amended): for every input that is neither an object nor an
array — null, undefined, booleans, numbers and strings — the validator
returns `Rejected` with exactly the single error
"Body must be a JSON object." and performs no per-field checks; array
inputs instead pass the guard and undergo the per-field checks. -/
theorem C2_amended_nonobject (v : JSValue) (h : isPrimitiveValue v = true) :
    validatePayload v = .rejected ["Body must be a JSON object."] := by
  cases v <;>
    simp_all [validatePayload, JSValue.truthy, JSValue.typeofStr,
      isPrimitiveValue]

/-- C2 witness: the string body `"hello"` is rejected by the guard. -/
theorem C2_witness :
    validatePayload (.str "hello") =
      .rejected ["Body must be a JSON object."] :=
  C2_amended_nonobject (.str "hello") rfl

/-- C3: the handler maps a JSON parse failure to
400 `{error: "Invalid JSON body"}`, a validation failure to
400 `{error: "ValidationError", details}`, and a validation success to
202 `{message: "accepted"}`; the spec's well-formed example payload
yields 202. -/
theorem C3_response_table :
    productUpdatedHttpHandler .fail =
      ⟨400, .obj [("error", .str "Invalid JSON body")]⟩ ∧
    (∀ v errors, validatePayload v = .rejected errors →
      productUpdatedHttpHandler (.ok v) =
        ⟨400, .obj [("error", .str "ValidationError"),
                    ("details", .arr (errors.map .str))]⟩) ∧
    (∀ v data, validatePayload v = .accepted data →
      productUpdatedHttpHandler (.ok v) =
        ⟨202, .obj [("message", .str "accepted")]⟩) ∧
    productUpdatedHttpHandler (.ok examplePayload) =
      ⟨202, .obj [("message", .str "accepted")]⟩ := by
  refine ⟨rfl, ?_, ?_, rfl⟩
  · intro v errors h
    simp [productUpdatedHttpHandler, h]
  · intro v data h
    simp [productUpdatedHttpHandler, h]

/-- C3 witness: a number body is rejected by validation, and the handler
wraps the validator's errors in the 400 ValidationError response. -/
theorem C3_witness :
    productUpdatedHttpHandler (.ok (.num (.finite (mkRat 42 1)))) =
      ⟨400, .obj [("error", .str "ValidationError"),
                  ("details", .arr [.str "Body must be a JSON object."])]⟩ :=
  C3_response_table.2.1 (.num (.finite (mkRat 42 1)))
    ["Body must be a JSON object."] rfl

/-- C4: for a truthy object-typed input, the updatedAt error is absent
exactly when the updatedAt field is a string that parses to a valid
timestamp whose canonical re-serialization is the original string; in
particular `"2024-01-01"` draws the error and
`"2024-01-01T00:00:00.000Z"` does not. -/
theorem C4_updatedAt_canonical (body : JSValue)
    (h1 : body.truthy = true) (h2 : body.typeofStr = "object") :
    (("updatedAt must be an ISO 8601 string (Date.toISOString)" ∉
        rejectionErrors (validatePayload body)) ↔
      ∃ s t, getField body "updatedAt" = .str s ∧ parseDate s = some t ∧
        toISOString t = s) ∧
    "updatedAt must be an ISO 8601 string (Date.toISOString)" ∈
      rejectionErrors (validatePayload
        (.obj [("updatedAt", .str "2024-01-01")])) ∧
    "updatedAt must be an ISO 8601 string (Date.toISOString)" ∉
      rejectionErrors (validatePayload
        (.obj [("updatedAt", .str "2024-01-01T00:00:00.000Z")])) := by
  refine ⟨?_, by decide, by decide⟩
  rw [rejectionErrors_validatePayload body h1 h2, mem_fieldErrors_updatedAt]
  simp only [Bool.not_eq_false]
  exact isIsoDateString_eq_true_iff _

/-- C4 witness: instantiated at a concrete object body. -/
theorem C4_witness :
    "updatedAt must be an ISO 8601 string (Date.toISOString)" ∈
      rejectionErrors (validatePayload
        (.obj [("updatedAt", .str "2024-01-01")])) :=
  (C4_updatedAt_canonical (.obj []) rfl rfl).2.1

/-- C5: on a truthy object-typed input with at least one field-rule
violation, the validator evaluates all five rules (no short-circuiting)
and rejects with exactly one message per violated rule, in the fixed
order id, name, pricePence, description, updatedAt. -/
theorem C5_all_violations_in_order (body : JSValue)
    (h1 : body.truthy = true) (h2 : body.typeofStr = "object")
    (h3 : fieldErrors body ≠ []) :
    validatePayload body = .rejected (
      (if strFails (getField body "id")
        then ["id must be a non-empty string"] else []) ++
      (if strFails (getField body "name")
        then ["name must be a non-empty string"] else []) ++
      (if priceFails (getField body "pricePence")
        then ["pricePence must be a non-negative integer"] else []) ++
      (if (getField body "description").typeofStr ≠ "string"
        then ["description must be a string"] else []) ++
      (if !isIsoDateString (getField body "updatedAt")
        then ["updatedAt must be an ISO 8601 string (Date.toISOString)"]
        else [])) :=
  validatePayload_object_rejected body h1 h2 h3

/-- C5 witness: the spec's three-violation body (empty id, negative
price, bad timestamp) is rejected with exactly those three messages, in
field order. -/
theorem C5_witness :
    validatePayload (.obj [("id", .str ""), ("name", .str "Widget"),
        ("pricePence", .num (.finite (mkRat (-5) 1))),
        ("description", .str ""), ("updatedAt", .str "bad")]) =
      .rejected ["id must be a non-empty string",
        "pricePence must be a non-negative integer",
        "updatedAt must be an ISO 8601 string (Date.toISOString)"] :=
  C5_all_violations_in_order
    (.obj [("id", .str ""), ("name", .str "Widget"),
        ("pricePence", .num (.finite (mkRat (-5) 1))),
        ("description", .str ""), ("updatedAt", .str "bad")])
    rfl rfl (by decide)

/-- C6: for a truthy object-typed input, the pricePence error is
reported exactly when the field is not a finite number that is an
integer and non-negative; in particular -1 and 3.5 draw the error and 0
does not. -/
theorem C6_pricePence_rule (body : JSValue)
    (h1 : body.truthy = true) (h2 : body.typeofStr = "object") :
    (("pricePence must be a non-negative integer" ∈
        rejectionErrors (validatePayload body)) ↔
      ¬ ∃ q : ℚ, getField body "pricePence" = .num (.finite q) ∧
        q.den = 1 ∧ 0 ≤ q) ∧
    "pricePence must be a non-negative integer" ∈
      rejectionErrors (validatePayload
        (.obj [("pricePence", .num (.finite (mkRat (-1) 1)))])) ∧
    "pricePence must be a non-negative integer" ∈
      rejectionErrors (validatePayload
        (.obj [("pricePence", .num (.finite (mkRat 7 2)))])) ∧
    "pricePence must be a non-negative integer" ∉
      rejectionErrors (validatePayload
        (.obj [("pricePence", .num (.finite (mkRat 0 1)))])) := by
  refine ⟨?_, by decide, by decide, by decide⟩
  rw [rejectionErrors_validatePayload body h1 h2, mem_fieldErrors_price,
    ← priceFails_eq_false_iff]
  cases hb : priceFails (getField body "pricePence") <;> simp [hb]

/-- C6 witness: instantiated at a concrete object body. -/
theorem C6_witness :
    "pricePence must be a non-negative integer" ∈
      rejectionErrors (validatePayload
        (.obj [("pricePence", .num (.finite (mkRat (-1) 1)))])) :=
  (C6_pricePence_rule (.obj []) rfl rfl).2.1

/-- C7: for a truthy object-typed input whose id field is missing, not
a string, or a string that trims to empty, the rejection includes
"id must be a non-empty string"; the name field obeys the same rule. -/
theorem C7_id_name_nonempty (body : JSValue)
    (h1 : body.truthy = true) (h2 : body.typeofStr = "object") :
    ((∀ s, getField body "id" = .str s → jsTrim s = "") →
      "id must be a non-empty string" ∈
        rejectionErrors (validatePayload body)) ∧
    ((∀ s, getField body "name" = .str s → jsTrim s = "") →
      "name must be a non-empty string" ∈
        rejectionErrors (validatePayload body)) := by
  rw [rejectionErrors_validatePayload body h1 h2]
  constructor
  · intro h
    rw [mem_fieldErrors_id]
    cases hb : strFails (getField body "id")
    · obtain ⟨s, hs, hne⟩ := (strFails_eq_false_iff _).mp hb
      exact absurd (h s hs) hne
    · rfl
  · intro h
    rw [mem_fieldErrors_name]
    cases hb : strFails (getField body "name")
    · obtain ⟨s, hs, hne⟩ := (strFails_eq_false_iff _).mp hb
      exact absurd (h s hs) hne
    · rfl

/-- C7 witness: a whitespace-only id draws the id error. -/
theorem C7_witness :
    "id must be a non-empty string" ∈
      rejectionErrors (validatePayload (.obj [("id", .str "  ")])) :=
  (C7_id_name_nonempty (.obj [("id", .str "  ")]) rfl rfl).1
    (fun s hs => by injection hs with h; subst h; decide)

/-- C8: the validator is a pure function of its input: equal inputs give
equal results, with no state read or written (the embedding is a total
function of the body alone). -/
theorem C8_pure_deterministic (b1 b2 : JSValue) (h : b1 = b2) :
    validatePayload b1 = validatePayload b2 := by
  rw [h]

/-- C8 witness: instantiated at a concrete input. -/
theorem C8_witness : validatePayload .null = validatePayload .null :=
  C8_pure_deterministic .null .null rfl

/-- C9: every result is exactly one of Accepted or Rejected; every
rejection carries a non-empty error list; and on truthy object-typed
inputs a rejection carries at most 5 messages. -/
theorem C9_result_shape (body : JSValue) :
    ((∃ d, validatePayload body = .accepted d) ↔
      ¬ ∃ e, validatePayload body = .rejected e) ∧
    (∀ e, validatePayload body = .rejected e → e ≠ []) ∧
    (∀ e, body.truthy = true → body.typeofStr = "object" →
      validatePayload body = .rejected e → e.length ≤ 5) := by
  have hs := validatePayload_shape body
  refine ⟨?_, ?_, ?_⟩
  · cases hv : validatePayload body with
    | accepted d => simp [hv]
    | rejected e => simp [hv]
  · intro e he
    rcases hs with h | ⟨h, hne⟩ | ⟨d, h⟩
    · rw [h] at he
      injection he with h'
      rw [← h']
      decide
    · rw [h] at he
      injection he with h'
      rw [← h']
      exact hne
    · rw [h] at he
      exact ValidationResult.noConfusion he
  · intro e _ _ he
    rcases hs with h | ⟨h, _⟩ | ⟨d, h⟩
    · rw [h] at he
      injection he with h'
      rw [← h']
      decide
    · rw [h] at he
      injection he with h'
      rw [← h']
      exact fieldErrors_length_le_five body
    · rw [h] at he
      exact ValidationResult.noConfusion he

/-- C9 witness: the guard rejection list is non-empty. -/
theorem C9_witness :
    (["Body must be a JSON object."] : List String) ≠ [] :=
  (C9_result_shape (.str "x")).2.1 ["Body must be a JSON object."] rfl

/-- C10: a non-finite numeric pricePence (NaN, Infinity, -Infinity) has
number type but is not an integer, so it draws the pricePence error. -/
theorem C10_nonfinite_price_rejected (body : JSValue)
    (h1 : body.truthy = true) (h2 : body.typeofStr = "object")
    (h3 : getField body "pricePence" = .num .nan ∨
          getField body "pricePence" = .num .inf ∨
          getField body "pricePence" = .num .negInf) :
    "pricePence must be a non-negative integer" ∈
      rejectionErrors (validatePayload body) := by
  rw [rejectionErrors_validatePayload body h1 h2, mem_fieldErrors_price]
  rcases h3 with h | h | h <;> rw [h] <;> rfl

/-- C10 witness: a NaN pricePence draws the error. -/
theorem C10_witness :
    "pricePence must be a non-negative integer" ∈
      rejectionErrors (validatePayload (.obj [("pricePence", .num .nan)])) :=
  C10_nonfinite_price_rejected (.obj [("pricePence", .num .nan)]) rfl rfl
    (Or.inl rfl)
